import Mathlib

/-!
Shallow embedding of `cubi_sak/snappy/pull_sheets.py`.

Python dictionaries are modelled as insertion-ordered association lists
(`dictInsert` overwrites in place and appends fresh keys, matching CPython
dict semantics); fallible Python operations (KeyError, IndexError,
AttributeError, `raise`) are modelled by `Option`-returning functions where
`none` means the Python code raises.
-/

set_option autoImplicit false

namespace PullSheets

/-- One characteristic or parameter value of an ISA node: a name and a value list. -/
structure Characteristic where
  name : String
  value : List String
deriving DecidableEq

/-- An ISA graph node as seen by `pull_sheets`. Materials carry a `type`
attribute; absence of the attribute (process nodes) is modelled by `none`.
`characteristics` and `parameter_values` model `getattr(node, a, ())`,
defaulting to the empty list when the node lacks the attribute. -/
structure IsaNode where
  name : String
  type : Option String
  characteristics : List Characteristic
  parameter_values : List Characteristic
deriving DecidableEq

/-- The frozen `Source` record of `pull_sheets.py`. Field values come from
`characteristics[...].value[0]`, so they are strings at runtime; `family` and
`batch_no` keep the `Optional` shape the rendering code tests for. -/
structure Source where
  family : Option String
  source_name : String
  batch_no : Option String
  father : String
  mother : String
  sex : String
  affected : String
  sample_name : String
deriving DecidableEq

/-- The frozen `Sample` record of `pull_sheets.py`. The three `first_value`
results default to `None`, hence `Option String`. -/
structure Sample where
  source : Source
  library_name : String
  library_type : String
  folder_name : Option String
  seq_platform : Option String
  library_kit : Option String
deriving DecidableEq

/-- Template for the to-be-generated file (`HEADER_TPL`); the two adjacent
Python string literals of the `[Data]` column line concatenate into one entry. -/
def HEADER_TPL : List String :=
  ["[Metadata]",
   "schema\tgermline_variants",
   "schema_version\tv1",
   "",
   "[Custom Fields]",
   "key\tannotatedEntity\tdocs\ttype\tminimum\tmaximum\tunit\tchoices\tpattern",
   "batchNo\tbioEntity\tBatch No.\tinteger\t.\t.\t.\t.\t.",
   "familyId\tbioEntity\tFamily\tstring\t.\t.\t.\t.\t.",
   "projectUuid\tbioEntity\tProject UUID\tstring\t.\t.\t.\t.\t.",
   "libraryKit\tngsLibrary\tEnrichment kit\tstring\t.\t.\t.\t.\t.",
   "",
   "[Data]",
   "familyId\tpatientName\tfatherName\tmotherName\tsex\tisAffected\tlibraryType\tfolderName\tbatchNo\thpoTerms\tprojectUuid\tseqPlatform\tlibraryKit"]

/-- Dictionary `MAPPING_SEX`; the argument is the lookup key (the Python key
`None` is `none`), and the result is `none` exactly when Python raises KeyError. -/
def MAPPING_SEX : Option String → Option String
  | some "female" => some "F"
  | some "male" => some "M"
  | some "unknown" => some "U"
  | none => some "."
  | some _ => none

/-- Dictionary `MAPPING_STATUS`, with the same KeyError convention as `MAPPING_SEX`. -/
def MAPPING_STATUS : Option String → Option String
  | some "affected" => some "Y"
  | some "carrier" => some "Y"
  | some "unaffected" => some "N"
  | some "unknown" => some "."
  | none => some "."
  | some _ => none

/-- Python `str.lower()` (the program only compares ASCII names). -/
def lowerStr (s : String) : String := ⟨s.data.map Char.toLower⟩

/-- Splitting a character list at every occurrence of a separator character;
`acc` holds the reversed current chunk. -/
def splitAux (sep : Char) : List Char → List Char → List (List Char)
  | [], acc => [acc.reverse]
  | c :: cs, acc =>
    if c == sep then acc.reverse :: splitAux sep cs [] else splitAux sep cs (c :: acc)

/-- Python `s.split(sep)` for a one-character separator. -/
def pySplit (s : String) (sep : Char) : List String :=
  (splitAux sep s.data []).map (fun l => ⟨l⟩)

/-- Python `s.startswith(pre)`. -/
def pyStartsWith (s pre : String) : Bool :=
  s.data.take pre.data.length == pre.data

/-- Python `x or y` on strings: the empty string is the only falsy string. -/
def pyOrStr (a b : String) : String := if a = "" then b else a

/-- Python `x or y` on an optional string: `None` and `""` are falsy. -/
def pyOrOpt (a : Option String) (b : String) : String :=
  match a with
  | none => b
  | some s => pyOrStr s b

/-- Python `sep.join(parts)`. -/
def pyJoin (sep : String) : List String → String
  | [] => ""
  | [a] => a
  | a :: b :: rest => a ++ sep ++ pyJoin sep (b :: rest)

/-- Python dict lookup `d[k]`; `none` means KeyError. -/
def dictGet {α : Type} (d : List (String × α)) (k : String) : Option α :=
  (d.find? (fun p => p.1 == k)).map (fun p => p.2)

/-- Python dict assignment `d[k] = v`: overwrite in place, append fresh keys. -/
def dictInsert {α : Type} (d : List (String × α)) (k : String) (v : α) : List (String × α) :=
  if d.any (fun p => p.1 == k) then
    d.map (fun p => if p.1 == k then (k, v) else p)
  else
    d ++ [(k, v)]

/-- Name comparison of `first_value`:
`(ignore_case and x.name.lower() == key.lower()) or (not ignore_case and x.name == key)`. -/
def attrMatch (ignore_case : Bool) (key : String) (c : Characteristic) : Bool :=
  (ignore_case && (lowerStr c.name == lowerStr key)) || (!ignore_case && (c.name == key))

/-- Lookup `first_value(key, node_path, default, ignore_case)`: scan nodes in path
order, within a node the characteristics before the parameter values, and
return the `;`-joined value list of the first matching attribute, else the
default. -/
def first_value (key : String) (node_path : List IsaNode) (dflt : Option String)
    (ignore_case : Bool) : Option String :=
  match node_path with
  | [] => dflt
  | node :: rest =>
    match (node.characteristics ++ node.parameter_values).find? (attrMatch ignore_case key) with
    | some c => some (pyJoin ";" c.value)
    | none => first_value key rest dflt ignore_case

/-- The dict comprehension `{c.name: c for c in cs}` followed by lookup of `k`:
a later characteristic with the same name overwrites an earlier one, hence
`find?` over the reversed list. -/
def charDict (cs : List Characteristic) (k : String) : Option Characteristic :=
  cs.reverse.find? (fun c => c.name == k)

/-- Access `characteristics[k].value[0]`: `none` models KeyError (missing name) as
well as IndexError (empty value list). -/
def charValue0 (cs : List Characteristic) (k : String) : Option String :=
  (charDict cs k).bind (fun c => c.value.head?)

/-- Construction of the `Source` record in the `Sample Name` branch of
`on_visit_material`; `firstTyped` is `material_path[0]` and `sampleName` is
`material.name`. -/
def mkSource (firstTyped : IsaNode) (sampleName : String) : Option Source :=
  match charValue0 firstTyped.characteristics "Family",
        charValue0 firstTyped.characteristics "Batch",
        charValue0 firstTyped.characteristics "Father",
        charValue0 firstTyped.characteristics "Mother",
        charValue0 firstTyped.characteristics "Sex",
        charValue0 firstTyped.characteristics "Disease status" with
  | some fam, some batch, some father, some mother, some sex, some aff =>
    some ⟨some fam, firstTyped.name, some batch, father, mother, sex, aff, sampleName⟩
  | _, _, _, _, _, _ => none

/-- The `if/elif` chain inferring the library type from the last `-`-separated
token of the library name; `none` models the `raise Exception(...)` branch. -/
def inferLibraryType (libraryName : String) : Option String :=
  match (pySplit libraryName (Char.ofNat 45)).getLast? with
  | none => none
  | some tok =>
    if pyStartsWith tok "WGS" then some "WGS"
    else if pyStartsWith tok "WES" then some "WES"
    else if pyStartsWith tok "Panel_seq" then some "Panel_seq"
    else none

/-- Construction of the `Sample` record in the `Library Name` branch. -/
def mkSample (src : Source) (library : IsaNode) (lt : String)
    (node_path : List IsaNode) : Sample :=
  ⟨src, library.name, lt,
   first_value "Folder Name" node_path none true,
   first_value "Instrument Model" node_path none true,
   first_value "Library Kit" node_path none true⟩

/-- State of `SampleSheetBuilder`: Source by sample name, Sample by sample name. -/
structure SampleSheetBuilder where
  sources : List (String × Source)
  samples : List (String × Sample)
deriving DecidableEq

/-- The state `__init__` creates: both dictionaries empty. -/
def initBuilder : SampleSheetBuilder := ⟨[], []⟩

/-- Visitor method `SampleSheetBuilder.on_visit_material`. `hasAssay` is `assay is not None`;
`none` models any raised exception (IndexError on an untyped path, KeyError or
IndexError while reading characteristics, the explicit `raise` on an unknown
library type, KeyError on a sample name missing from `sources`). -/
def on_visit_material (b : SampleSheetBuilder) (material : IsaNode)
    (node_path : List IsaNode) (hasAssay : Bool) : Option SampleSheetBuilder :=
  match (node_path.filter (fun x => x.type.isSome)).head? with
  | none => none
  | some firstTyped =>
    if material.type == some "Sample Name" && !hasAssay then
      match mkSource firstTyped material.name with
      | none => none
      | some src => some ⟨dictInsert b.sources material.name src, b.samples⟩
    else if material.type == some "Library Name" then
      match inferLibraryType material.name with
      | none => none
      | some lt =>
        match dictGet b.sources firstTyped.name with
        | none => none
        | some src0 =>
          some ⟨b.sources,
                dictInsert b.samples firstTyped.name (mkSample src0 material lt node_path)⟩
    else
      some b

/-- One visit of the traversal: the material, its node path, and whether an
assay context is present. -/
structure VisitEvent where
  material : IsaNode
  node_path : List IsaNode
  hasAssay : Bool
deriving DecidableEq

/-- Run the builder over a sequence of material visits, in order. -/
def runVisits (b : SampleSheetBuilder) : List VisitEvent → Option SampleSheetBuilder
  | [] => some b
  | e :: es =>
    match on_visit_material b e.material e.node_path e.hasAssay with
    | none => none
    | some b2 => runVisits b2 es

/-- Cell `sample.library_type or "." if sample else "."`. -/
def libraryTypeCell : Option Sample → String
  | none => "."
  | some s => pyOrStr s.library_type "."

/-- Cell `sample.folder_name or "." if sample else "."`. -/
def folderNameCell : Option Sample → String
  | none => "."
  | some s => pyOrOpt s.folder_name "."

/-- Cell `"0" if source.batch_no is None else source.batch_no`. -/
def batchNoCell (src : Source) : String :=
  match src.batch_no with
  | none => "0"
  | some b => b

/-- Cell `sample.library_kit or "." if source else "."`. The conditional tests
`source`, which is always truthy in the rendering loop, so the expression
always evaluates `sample.library_kit`; when `sample` is `None` this raises
AttributeError, modelled by `none`. -/
def libraryKitCell : Option Sample → Option String
  | none => none
  | some s => some (pyOrOpt s.library_kit ".")

/-- One iteration of the rendering loop of `build_sheet`: the 13-element row
for one entry of `sources`, or `none` when the iteration raises (KeyError in a
mapping dictionary, or the AttributeError of `libraryKitCell`). -/
def renderRow (src : Source) (sample : Option Sample) (projectUuid : String) :
    Option (List String) :=
  match MAPPING_SEX (some (lowerStr src.sex)), MAPPING_STATUS (some (lowerStr src.affected)),
        libraryKitCell sample with
  | some sexCell, some affCell, some kitCell =>
    some [pyOrOpt src.family "FAM",
          pyOrStr src.source_name ".",
          pyOrStr src.father "0",
          pyOrStr src.mother "0",
          sexCell,
          affCell,
          libraryTypeCell sample,
          folderNameCell sample,
          batchNoCell src,
          ".",
          projectUuid,
          "Illumina",
          kitCell]
  | _, _, _ => none

/-- The rendering loop of `build_sheet`: one tab-joined row per entry of
`sources`, in insertion order, each looking up `samples.get(sample_name, None)`. -/
def buildRows (sources : List (String × Source)) (samples : List (String × Sample))
    (uuid : String) : Option (List String) :=
  match sources with
  | [] => some []
  | (nm, src) :: rest =>
    match renderRow src (dictGet samples nm) uuid with
    | none => none
    | some cells =>
      match buildRows rest samples uuid with
      | none => none
      | some rs => some (pyJoin "\t" cells :: rs)

/-- Rendering part of `build_sheet` (lines 257 to 279): the joined header
template, the data rows, an empty final element, all newline-joined. The
network fetch and traversal prefix of the Python function is modelled by
taking the resulting builder state as input. -/
def build_sheet (b : SampleSheetBuilder) (projectUuid : String) : Option String :=
  match buildRows b.sources b.samples projectUuid with
  | none => none
  | some rows => some (pyJoin "\n" (pyJoin "\n" HEADER_TPL :: rows ++ [""]))

/-- All characteristics and parameter values of a node path, flattened in the
iteration order of `first_value`. -/
def allAttrs : List IsaNode → List Characteristic
  | [] => []
  | n :: rest => n.characteristics ++ n.parameter_values ++ allAttrs rest

/-- Concrete source used by witnesses: as recorded for sample name `sam1`. -/
def wSource : Source := ⟨some "FAM1", "src1", some "1", "0", "0", "Female", "affected", "sam1"⟩

/-- Concrete sample used by witnesses. -/
def wSample : Sample := ⟨wSource, "sam1-WGS1", "WGS", some "folder", some "HiSeq", some "kit"⟩

/-- The row `renderRow` produces for `wSource` and `wSample`. -/
def wRow : List String :=
  ["FAM1", "src1", "0", "0", "F", "Y", "WGS", "folder", "1", ".", "u", "Illumina", "kit"]

/-- C4: `first_value` returns the `;`-joined value list of the first matching
attribute over the flattened node path (nodes in path order, characteristics
of a node before its parameter values), the default when nothing matches, and
the name comparison is case-insensitive exactly when `ignore_case` is true. -/
theorem first_value_spec (key : String) (node_path : List IsaNode) (dflt : Option String)
    (ic : Bool) :
    (first_value key node_path dflt ic =
      match (allAttrs node_path).find? (attrMatch ic key) with
      | some c => some (pyJoin ";" c.value)
      | none => dflt) ∧
    (∀ c : Characteristic,
      (attrMatch true key c = true ↔ lowerStr c.name = lowerStr key) ∧
      (attrMatch false key c = true ↔ c.name = key)) := by
  constructor
  · induction node_path with
    | nil => rfl
    | cons n rest ih =>
      cases h1 : List.find? (attrMatch ic key) n.characteristics with
      | some c => simp [first_value, allAttrs, List.find?_append, h1, Option.or]
      | none =>
        cases h2 : List.find? (attrMatch ic key) n.parameter_values with
        | some c => simp [first_value, allAttrs, List.find?_append, h1, h2, Option.or]
        | none => simpa [first_value, allAttrs, List.find?_append, h1, h2, Option.or] using ih
  · intro c
    constructor
    · simp [attrMatch]
    · simp [attrMatch]

/-- C3: whenever a row renders, its sex cell is the `MAPPING_SEX` image of the
lowercased sex of the source and its isAffected cell is the `MAPPING_STATUS`
image of the lowercased disease status, with the fixed mappings female to F,
male to M, unknown to U, and affected to Y, carrier to Y, unaffected to N,
unknown to the dot placeholder. -/
theorem render_sex_affected (src : Source) (sample : Option Sample) (uuid : String)
    (row : List String) (h : renderRow src sample uuid = some row) :
    row[4]? = MAPPING_SEX (some (lowerStr src.sex)) ∧
    row[5]? = MAPPING_STATUS (some (lowerStr src.affected)) ∧
    MAPPING_SEX (some "female") = some "F" ∧
    MAPPING_SEX (some "male") = some "M" ∧
    MAPPING_SEX (some "unknown") = some "U" ∧
    MAPPING_STATUS (some "affected") = some "Y" ∧
    MAPPING_STATUS (some "carrier") = some "Y" ∧
    MAPPING_STATUS (some "unaffected") = some "N" ∧
    MAPPING_STATUS (some "unknown") = some "." := by
  refine ⟨?_, ?_, rfl, rfl, rfl, rfl, rfl, rfl, rfl⟩ <;>
  · cases hs : MAPPING_SEX (some (lowerStr src.sex)) with
    | none => simp [renderRow, hs] at h
    | some sexCell =>
      cases ha : MAPPING_STATUS (some (lowerStr src.affected)) with
      | none => simp [renderRow, hs, ha] at h
      | some affCell =>
        cases hk : libraryKitCell sample with
        | none => simp [renderRow, hs, ha, hk] at h
        | some kitCell =>
          simp only [renderRow, hs, ha, hk, Option.some.injEq] at h
          subst h
          simp

/-- Witness for C3 at `wSource`, `wSample`. -/
theorem render_sex_affected_witness :
    wRow[4]? = MAPPING_SEX (some (lowerStr wSource.sex)) ∧
    wRow[5]? = MAPPING_STATUS (some (lowerStr wSource.affected)) ∧
    MAPPING_SEX (some "female") = some "F" ∧
    MAPPING_SEX (some "male") = some "M" ∧
    MAPPING_SEX (some "unknown") = some "U" ∧
    MAPPING_STATUS (some "affected") = some "Y" ∧
    MAPPING_STATUS (some "carrier") = some "Y" ∧
    MAPPING_STATUS (some "unaffected") = some "N" ∧
    MAPPING_STATUS (some "unknown") = some "." :=
  render_sex_affected wSource (some wSample) "u" wRow (by rfl)

/-- C6: every rendered data row has exactly 13 cells, the number of
tab-separated column names of the `[Data]` header line of `HEADER_TPL`. -/
theorem render_row_width (src : Source) (sample : Option Sample) (uuid : String)
    (row : List String) (h : renderRow src sample uuid = some row) :
    row.length = 13 ∧ (pySplit (HEADER_TPL.getLastD "") (Char.ofNat 9)).length = 13 := by
  refine ⟨?_, by decide⟩
  cases hs : MAPPING_SEX (some (lowerStr src.sex)) with
  | none => simp [renderRow, hs] at h
  | some sexCell =>
    cases ha : MAPPING_STATUS (some (lowerStr src.affected)) with
    | none => simp [renderRow, hs, ha] at h
    | some affCell =>
      cases hk : libraryKitCell sample with
      | none => simp [renderRow, hs, ha, hk] at h
      | some kitCell =>
        simp only [renderRow, hs, ha, hk, Option.some.injEq] at h
        subst h
        rfl

/-- Witness for C6 at `wSource`, `wSample`. -/
theorem render_row_width_witness :
    wRow.length = 13 ∧ (pySplit (HEADER_TPL.getLastD "") (Char.ofNat 9)).length = 13 :=
  render_row_width wSource (some wSample) "u" wRow (by rfl)

/-- C1 (code bug witness): the libraryType and folderName cells fall back to
the dot placeholder when the sample is missing, but the libraryKit cell tests
`source` (always truthy) instead of `sample`, so it dereferences the missing
sample: the row for a source without a samples entry raises instead of
rendering, and `build_sheet` fails on such a builder state. -/
theorem missing_sample_render_fails :
    libraryTypeCell none = "." ∧
    folderNameCell none = "." ∧
    libraryKitCell none = none ∧
    renderRow wSource none "u" = none ∧
    build_sheet ⟨[("sam1", wSource)], []⟩ "u" = none :=
  ⟨rfl, rfl, rfl, rfl, rfl⟩

/-- Sample whose stored sequencing platform differs from Illumina. -/
def c2sample : Sample := ⟨wSource, "sam1-WGS1", "WGS", some "folder", some "PacBio", some "kit"⟩

/-- C2 counterexample: the rendered seqPlatform cell is the constant Illumina
even though the stored `seq_platform` of the sample is PacBio. -/
theorem seq_platform_not_read_cex :
    c2sample.seq_platform = some "PacBio" ∧
    ("PacBio" : String) ≠ "Illumina" ∧
    (renderRow wSource (some c2sample) "u").map (fun r => r[11]?) = some (some "Illumina") :=
  ⟨rfl, by decide, rfl⟩

/-- C2 amended: the seqPlatform cell of every rendered row is the constant
Illumina, and rendering reads neither the `seq_platform`, nor the
`library_name`, nor the `source` field of the sample: replacing all three
changes no rendered row. -/
theorem seq_platform_amended (src : Source) (s : Sample) (uuid : String)
    (row : List String) (h : renderRow src (some s) uuid = some row) :
    row[11]? = some "Illumina" ∧
    ∀ sp ln src2, renderRow src
      (some ⟨src2, ln, s.library_type, s.folder_name, sp, s.library_kit⟩) uuid = some row := by
  cases hs : MAPPING_SEX (some (lowerStr src.sex)) with
  | none => simp [renderRow, hs] at h
  | some sexCell =>
    cases ha : MAPPING_STATUS (some (lowerStr src.affected)) with
    | none => simp [renderRow, hs, ha] at h
    | some affCell =>
      simp only [renderRow, hs, ha, libraryKitCell, Option.some.injEq] at h
      subst h
      constructor
      · rfl
      · intro sp ln src2
        simp only [renderRow, hs, ha, libraryKitCell]
        rfl

/-- Witness for C2 amended at `wSource`, `wSample`. -/
theorem seq_platform_amended_witness :
    wRow[11]? = some "Illumina" ∧
    ∀ sp ln src2, renderRow wSource
      (some ⟨src2, ln, wSample.library_type, wSample.folder_name, sp,
             wSample.library_kit⟩) "u" = some wRow :=
  seq_platform_amended wSource wSample "u" wRow (by rfl)

/-- Joining with an extra empty final element appends one separator; this is
how the final `result.append("")` of `build_sheet` produces the trailing
newline. -/
theorem pyJoin_append_empty (sep a : String) (l : List String) :
    pyJoin sep (a :: (l ++ [""])) = pyJoin sep (a :: l) ++ sep := by
  induction l generalizing a with
  | nil => simp [pyJoin]
  | cons b t ih => simp [pyJoin, ih b, String.append_assoc]

/-- Pointwise description of the row loop of `build_sheet` on success. -/
theorem buildRows_spec (samples : List (String × Sample)) (uuid : String) :
    ∀ (l : List (String × Source)) (rows : List String),
      buildRows l samples uuid = some rows →
      rows.length = l.length ∧
      ∀ i, i < l.length →
        ∃ nm src cells, l[i]? = some (nm, src) ∧
          renderRow src (dictGet samples nm) uuid = some cells ∧
          rows[i]? = some (pyJoin "\t" cells) := by
  intro l
  induction l with
  | nil =>
    intro rows h
    simp only [buildRows, Option.some.injEq] at h
    subst h
    exact ⟨rfl, fun i hi => absurd hi (by simp)⟩
  | cons hd tl ih =>
    intro rows h
    obtain ⟨nm, src⟩ := hd
    cases hr : renderRow src (dictGet samples nm) uuid with
    | none => simp [buildRows, hr] at h
    | some cells =>
      cases hb : buildRows tl samples uuid with
      | none => simp [buildRows, hr, hb] at h
      | some rs =>
        simp only [buildRows, hr, hb, Option.some.injEq] at h
        subst h
        obtain ⟨hlen, hpt⟩ := ih rs hb
        refine ⟨by simp [hlen], ?_⟩
        intro i hi
        cases i with
        | zero => exact ⟨nm, src, cells, by simp, hr, by simp⟩
        | succ j =>
          have hj : j < tl.length := by simpa using hi
          obtain ⟨nm2, src2, cells2, e1, e2, e3⟩ := hpt j hj
          exact ⟨nm2, src2, cells2, by simpa using e1, e2, by simpa using e3⟩

/-- C5: on success, `build_sheet` yields the newline-joined header template
followed by exactly one tab-joined data row per entry of the sources table, in
recorded order, and the output carries a final trailing newline (the empty
final line). -/
theorem build_sheet_shape (b : SampleSheetBuilder) (uuid : String) (out : String)
    (h : build_sheet b uuid = some out) :
    ∃ rows : List String,
      rows.length = b.sources.length ∧
      (∀ i, i < b.sources.length →
        ∃ nm src cells, b.sources[i]? = some (nm, src) ∧
          renderRow src (dictGet b.samples nm) uuid = some cells ∧
          rows[i]? = some (pyJoin "\t" cells)) ∧
      out = pyJoin "\n" (pyJoin "\n" HEADER_TPL :: rows) ++ "\n" := by
  cases hb : buildRows b.sources b.samples uuid with
  | none => simp [build_sheet, hb] at h
  | some rows =>
    simp only [build_sheet, hb, Option.some.injEq] at h
    subst h
    obtain ⟨hlen, hpt⟩ := buildRows_spec b.samples uuid b.sources rows hb
    refine ⟨rows, hlen, hpt, ?_⟩
    rw [List.cons_append]
    exact pyJoin_append_empty "\n" (pyJoin "\n" HEADER_TPL) rows

/-- Builder state used by the C5 witness. -/
def wBuilder : SampleSheetBuilder := ⟨[("sam1", wSource)], [("sam1", wSample)]⟩

/-- The sheet `build_sheet` produces for `wBuilder`. -/
def wOut : String := (build_sheet wBuilder "u").getD ""

/-- Witness for C5 at `wBuilder`. -/
theorem build_sheet_shape_witness :
    ∃ rows : List String,
      rows.length = wBuilder.sources.length ∧
      (∀ i, i < wBuilder.sources.length →
        ∃ nm src cells, wBuilder.sources[i]? = some (nm, src) ∧
          renderRow src (dictGet wBuilder.samples nm) "u" = some cells ∧
          rows[i]? = some (pyJoin "\t" cells)) ∧
      wOut = pyJoin "\n" (pyJoin "\n" HEADER_TPL :: rows) ++ "\n" :=
  build_sheet_shape wBuilder "u" wOut (by rfl)

/-- Library material whose name carries a WGS suffix token. -/
def c9lib : IsaNode := ⟨"x-WGS1", some "Library Name", [], []⟩

/-- Sample node heading the node path of the library visit. -/
def c9sampleNode : IsaNode := ⟨"s", some "Sample Name", [], []⟩

/-- Node path of the library visit used by the C9 theorems. -/
def c9path : List IsaNode := [c9sampleNode, c9lib]

/-- C9 counterexample: the last dash-token of the library name starts with
WGS, so the claim says the visit cannot raise and the samples table gains an
entry; yet on a builder whose sources table lacks the sample name the visit
raises (KeyError on `self.sources[sample.name]`). -/
theorem library_visit_cex :
    pyStartsWith ((pySplit "x-WGS1" (Char.ofNat 45)).getLastD "") "WGS" = true ∧
    inferLibraryType "x-WGS1" = some "WGS" ∧
    on_visit_material initBuilder c9lib c9path true = none :=
  ⟨rfl, rfl, rfl⟩

/-- C9 amended: visiting a Library Name material raises exactly when the last
dash-token of the library name matches none of the three known prefixes or
when the name of the first typed node of the path has no sources entry; on
success the library type is the first matching prefix, tried in the order WGS,
WES, Panel_seq, and the samples table gains or overwrites the entry for that
node name. -/
theorem library_visit_amended (b : SampleSheetBuilder) (material : IsaNode)
    (node_path : List IsaNode) (hasAssay : Bool) (firstTyped : IsaNode)
    (hm : material.type = some "Library Name")
    (hf : (node_path.filter (fun x => x.type.isSome)).head? = some firstTyped) :
    (on_visit_material b material node_path hasAssay = none ↔
      inferLibraryType material.name = none ∨ dictGet b.sources firstTyped.name = none) ∧
    (∀ tok, (pySplit material.name (Char.ofNat 45)).getLast? = some tok →
      inferLibraryType material.name =
        (if pyStartsWith tok "WGS" then some "WGS"
         else if pyStartsWith tok "WES" then some "WES"
         else if pyStartsWith tok "Panel_seq" then some "Panel_seq"
         else none)) ∧
    (∀ lt src0, inferLibraryType material.name = some lt →
      dictGet b.sources firstTyped.name = some src0 →
      on_visit_material b material node_path hasAssay =
        some ⟨b.sources,
              dictInsert b.samples firstTyped.name (mkSample src0 material lt node_path)⟩) := by
  have h1 : (material.type == some "Sample Name") = false := by simp [hm]
  have h2 : (material.type == some "Library Name") = true := by simp [hm]
  have hterm : on_visit_material b material node_path hasAssay =
      (match inferLibraryType material.name with
       | none => none
       | some lt =>
         match dictGet b.sources firstTyped.name with
         | none => none
         | some src0 =>
           some ⟨b.sources,
                 dictInsert b.samples firstTyped.name (mkSample src0 material lt node_path)⟩) := by
    rw [on_visit_material]
    simp only [hf, h1, h2, Bool.false_and, Bool.false_eq_true, if_false, if_true]
  refine ⟨?_, ?_, ?_⟩
  · rw [hterm]
    cases hi : inferLibraryType material.name with
    | none => simp
    | some lt =>
      cases hd : dictGet b.sources firstTyped.name with
      | none => simp
      | some src0 => simp
  · intro tok htok
    rw [inferLibraryType, htok]
  · intro lt src0 hlt hd
    rw [hterm, hlt, hd]

/-- Builder holding a sources entry for the sample name `s`. -/
def c9builder : SampleSheetBuilder := ⟨[("s", wSource)], []⟩

/-- Witness for C9 amended at `c9builder`. -/
theorem library_visit_amended_witness :
    (on_visit_material c9builder c9lib c9path true = none ↔
      inferLibraryType c9lib.name = none ∨ dictGet c9builder.sources c9sampleNode.name = none) ∧
    (∀ tok, (pySplit c9lib.name (Char.ofNat 45)).getLast? = some tok →
      inferLibraryType c9lib.name =
        (if pyStartsWith tok "WGS" then some "WGS"
         else if pyStartsWith tok "WES" then some "WES"
         else if pyStartsWith tok "Panel_seq" then some "Panel_seq"
         else none)) ∧
    (∀ lt src0, inferLibraryType c9lib.name = some lt →
      dictGet c9builder.sources c9sampleNode.name = some src0 →
      on_visit_material c9builder c9lib c9path true =
        some ⟨c9builder.sources,
              dictInsert c9builder.samples c9sampleNode.name (mkSample src0 c9lib lt c9path)⟩) :=
  library_visit_amended c9builder c9lib c9path true c9sampleNode rfl rfl

/-- The six characteristic names the Sample Name branch reads. -/
def requiredKeys : List String := ["Family", "Batch", "Father", "Mother", "Sex", "Disease status"]

/-- A successful dict-comprehension lookup returns a characteristic of the
list carrying the looked-up name. -/
theorem charDict_mem (cs : List Characteristic) (k : String) (c : Characteristic)
    (h : charDict cs k = some c) : c ∈ cs ∧ c.name = k := by
  rw [charDict] at h
  have hmem := List.mem_of_find?_eq_some h
  have hp := List.find?_some h
  rw [List.mem_reverse] at hmem
  exact ⟨hmem, by simpa using hp⟩

/-- The dict-comprehension lookup succeeds exactly when some characteristic
carries the looked-up name. -/
theorem charDict_isSome (cs : List Characteristic) (k : String) :
    (charDict cs k).isSome ↔ ∃ c ∈ cs, c.name = k := by
  rw [charDict, List.find?_isSome]
  constructor
  · rintro ⟨c, hc, hp⟩
    exact ⟨c, List.mem_reverse.mp hc, by simpa using hp⟩
  · rintro ⟨c, hc, hn⟩
    exact ⟨c, List.mem_reverse.mpr hc, by simpa using hn⟩

/-- With pairwise distinct characteristic names, `characteristics[k].value[0]`
succeeds exactly when a characteristic named `k` with a non-empty value list
is present. -/
theorem charValue0_isSome (cs : List Characteristic) (k : String)
    (hnd : (cs.map (fun c => c.name)).Nodup) :
    (charValue0 cs k).isSome ↔ ∃ c ∈ cs, c.name = k ∧ c.value ≠ [] := by
  rw [charValue0]
  constructor
  · intro h
    cases hcd : charDict cs k with
    | none => rw [hcd] at h; simp at h
    | some c =>
      rw [hcd] at h
      simp only [Option.some_bind] at h
      obtain ⟨hmem, hname⟩ := charDict_mem cs k c hcd
      refine ⟨c, hmem, hname, ?_⟩
      cases hv : c.value with
      | nil => rw [hv] at h; simp at h
      | cons a t => simp [hv]
  · rintro ⟨c, hmem, hname, hval⟩
    have hsome : (charDict cs k).isSome := (charDict_isSome cs k).mpr ⟨c, hmem, hname⟩
    obtain ⟨c2, hc2⟩ := Option.isSome_iff_exists.mp hsome
    obtain ⟨hmem2, hname2⟩ := charDict_mem cs k c2 hc2
    have hceq : c2 = c :=
      List.inj_on_of_nodup_map hnd hmem2 hmem (by rw [hname2, hname])
    subst hceq
    rw [hc2]
    simp only [Option.some_bind]
    cases hv : c2.value with
    | nil => exact absurd hv hval
    | cons a t => simp [hv]

/-- With pairwise distinct characteristic names, the `Source` construction of
the Sample Name branch succeeds exactly when all six required characteristics
are present with non-empty value lists. -/
theorem mkSource_isSome (node : IsaNode) (sampleName : String)
    (hnd : (node.characteristics.map (fun c => c.name)).Nodup) :
    (mkSource node sampleName).isSome ↔
      ∀ k ∈ requiredKeys, ∃ c ∈ node.characteristics, c.name = k ∧ c.value ≠ [] := by
  have hiff : ∀ k, (charValue0 node.characteristics k).isSome ↔
      ∃ c ∈ node.characteristics, c.name = k ∧ c.value ≠ [] :=
    fun k => charValue0_isSome node.characteristics k hnd
  have hforall : (∀ k ∈ requiredKeys, ∃ c ∈ node.characteristics, c.name = k ∧ c.value ≠ []) ↔
      ((charValue0 node.characteristics "Family").isSome ∧
       (charValue0 node.characteristics "Batch").isSome ∧
       (charValue0 node.characteristics "Father").isSome ∧
       (charValue0 node.characteristics "Mother").isSome ∧
       (charValue0 node.characteristics "Sex").isSome ∧
       (charValue0 node.characteristics "Disease status").isSome) := by
    simp only [requiredKeys, List.forall_mem_cons, ← hiff]
    simp
  rw [hforall]
  cases h1 : charValue0 node.characteristics "Family" <;>
    cases h2 : charValue0 node.characteristics "Batch" <;>
      cases h3 : charValue0 node.characteristics "Father" <;>
        cases h4 : charValue0 node.characteristics "Mother" <;>
          cases h5 : charValue0 node.characteristics "Sex" <;>
            cases h6 : charValue0 node.characteristics "Disease status" <;>
              simp [mkSource, h1, h2, h3, h4, h5, h6]

/-- C10: with distinct characteristic names on the first typed node of the
path, visiting a Sample Name material outside an assay succeeds exactly when
that node carries characteristics named Family, Batch, Father, Mother, Sex and
Disease status (case-sensitively), each with a non-empty value list; when one
is missing or has an empty value list the visit raises. -/
theorem sample_visit_precondition (b : SampleSheetBuilder) (material : IsaNode)
    (node_path : List IsaNode) (firstTyped : IsaNode)
    (hm : material.type = some "Sample Name")
    (hf : (node_path.filter (fun x => x.type.isSome)).head? = some firstTyped)
    (hnd : (firstTyped.characteristics.map (fun c => c.name)).Nodup) :
    (on_visit_material b material node_path false).isSome ↔
      ∀ k ∈ requiredKeys, ∃ c ∈ firstTyped.characteristics, c.name = k ∧ c.value ≠ [] := by
  have h1 : (material.type == some "Sample Name") = true := by simp [hm]
  have hterm : on_visit_material b material node_path false =
      (match mkSource firstTyped material.name with
       | none => none
       | some src => some ⟨dictInsert b.sources material.name src, b.samples⟩) := by
    rw [on_visit_material]
    simp [hf, h1]
  rw [hterm, ← mkSource_isSome firstTyped material.name hnd]
  cases hs : mkSource firstTyped material.name <;> simp

/-- Source node of the C10 witness, carrying all six required characteristics. -/
def c10source : IsaNode :=
  ⟨"src1", some "Source Name",
   [⟨"Family", ["FAM1"]⟩, ⟨"Batch", ["1"]⟩, ⟨"Father", ["0"]⟩, ⟨"Mother", ["0"]⟩,
    ⟨"Sex", ["male"]⟩, ⟨"Disease status", ["affected"]⟩], []⟩

/-- Sample material of the C10 witness. -/
def c10material : IsaNode := ⟨"sam1", some "Sample Name", [], []⟩

/-- Node path of the C10 witness. -/
def c10path : List IsaNode := [c10source, c10material]

/-- Witness for C10 at `c10source`. -/
theorem sample_visit_precondition_witness :
    (on_visit_material initBuilder c10material c10path false).isSome ↔
      ∀ k ∈ requiredKeys, ∃ c ∈ c10source.characteristics, c.name = k ∧ c.value ≠ [] :=
  sample_visit_precondition initBuilder c10material c10path c10source rfl rfl (by decide)

/-- A visit that records a Source: a Sample Name material outside an assay. -/
def isSampleEvent (e : VisitEvent) : Bool :=
  (e.material.type == some "Sample Name") && !e.hasAssay

/-- A visit that records a Sample: a Library Name material. -/
def isLibraryEvent (e : VisitEvent) : Bool :=
  e.material.type == some "Library Name"

/-- Keys of the sources table name the sample whose Source they hold. -/
def sourcesKeyed (b : SampleSheetBuilder) : Prop :=
  ∀ p ∈ b.sources, p.2.sample_name = p.1

/-- Every samples entry stores the Source found under the same key in sources. -/
def samplesConsistent (b : SampleSheetBuilder) : Prop :=
  ∀ q ∈ b.samples, dictGet b.sources q.1 = some q.2.source

/-- Every member of a dict after an assignment is the new binding or an old one. -/
theorem mem_dictInsert {α : Type} (d : List (String × α)) (k : String) (v : α)
    (q : String × α) (h : q ∈ dictInsert d k v) : q = (k, v) ∨ q ∈ d := by
  rw [dictInsert] at h
  by_cases hc : d.any (fun p => p.1 == k) = true
  · rw [if_pos hc] at h
    obtain ⟨p, hp, hpq⟩ := List.mem_map.mp h
    by_cases hk : (p.1 == k) = true
    · left
      rw [if_pos hk] at hpq
      exact hpq.symm
    · right
      rw [if_neg hk] at hpq
      exact hpq ▸ hp
  · rw [if_neg hc] at h
    rcases List.mem_append.mp h with h1 | h1
    · right; exact h1
    · left; simpa using h1

/-- A successful dict lookup returns a value bound in the list. -/
theorem dictGet_mem {α : Type} (d : List (String × α)) (k : String) (v : α)
    (h : dictGet d k = some v) : (k, v) ∈ d := by
  rw [dictGet] at h
  cases hf : d.find? (fun p => p.1 == k) with
  | none => rw [hf] at h; simp at h
  | some p =>
    rw [hf] at h
    simp at h
    have hp := List.find?_some hf
    have hm := List.mem_of_find?_eq_some hf
    have hk : p.1 = k := by simpa using hp
    have hpv : p = (k, v) := by
      cases p
      simp_all
    exact hpv ▸ hm

/-- A Source recorded by `mkSource` carries the sample name it was keyed by. -/
theorem mkSource_sample_name (node : IsaNode) (n : String) (src : Source)
    (h : mkSource node n = some src) : src.sample_name = n := by
  rw [mkSource] at h
  split at h
  · cases h; rfl
  · exact absurd h (by simp)

/-- Exhaustive description of one successful material visit: a Sample Name
visit outside an assay extends the sources table, a Library Name visit extends
the samples table with a Sample holding the looked-up Source, and any other
visit leaves the builder unchanged. -/
theorem on_visit_cases (b b2 : SampleSheetBuilder) (material : IsaNode)
    (node_path : List IsaNode) (hasAssay : Bool)
    (h : on_visit_material b material node_path hasAssay = some b2) :
    (∃ src : Source,
        ((material.type == some "Sample Name") && !hasAssay) = true ∧
        src.sample_name = material.name ∧
        b2 = ⟨dictInsert b.sources material.name src, b.samples⟩) ∨
    (∃ (firstTyped : IsaNode) (lt : String) (src0 : Source),
        (material.type == some "Library Name") = true ∧
        dictGet b.sources firstTyped.name = some src0 ∧
        (mkSample src0 material lt node_path).source = src0 ∧
        b2 = ⟨b.sources,
              dictInsert b.samples firstTyped.name (mkSample src0 material lt node_path)⟩) ∨
    b2 = b := by
  rw [on_visit_material] at h
  split at h
  next => exact absurd h (by simp)
  next firstTyped hft =>
    split at h
    next hsample =>
      split at h
      next hmk => exact absurd h (by simp)
      next src hmk =>
        left
        exact ⟨src, hsample, mkSource_sample_name firstTyped material.name src hmk,
               (Option.some.inj h).symm⟩
    next hsample =>
      split at h
      next hlib =>
        split at h
        next hlt => exact absurd h (by simp)
        next lt hlt =>
          split at h
          next hget => exact absurd h (by simp)
          next src0 hget =>
            right; left
            exact ⟨firstTyped, lt, src0, hlib, hget, rfl, (Option.some.inj h).symm⟩
      next hlib =>
        right; right
        exact (Option.some.inj h).symm

/-- Any successful visit preserves the keying of the sources table. -/
theorem visit_sourcesKeyed (b b2 : SampleSheetBuilder) (material : IsaNode)
    (node_path : List IsaNode) (hasAssay : Bool)
    (h : on_visit_material b material node_path hasAssay = some b2)
    (hk : sourcesKeyed b) : sourcesKeyed b2 := by
  rcases on_visit_cases b b2 material node_path hasAssay h with
    ⟨src, _, hname, hb2⟩ | ⟨ft, lt, src0, _, _, _, hb2⟩ | hb2
  · subst hb2
    intro p hp
    rcases mem_dictInsert b.sources material.name src p hp with rfl | hp2
    · exact hname
    · exact hk p hp2
  · subst hb2
    intro p hp
    exact hk p hp
  · subst hb2
    exact hk

/-- A successful visit that is not a Library Name visit leaves the samples
table unchanged. -/
theorem visit_nonlibrary_samples (b b2 : SampleSheetBuilder) (material : IsaNode)
    (node_path : List IsaNode) (hasAssay : Bool)
    (h : on_visit_material b material node_path hasAssay = some b2)
    (hl : isLibraryEvent ⟨material, node_path, hasAssay⟩ = false) :
    b2.samples = b.samples := by
  rcases on_visit_cases b b2 material node_path hasAssay h with
    ⟨src, _, _, hb2⟩ | ⟨ft, lt, src0, hcond, _, _, hb2⟩ | hb2
  · subst hb2; rfl
  · exact absurd hcond (by simpa [isLibraryEvent] using hl)
  · subst hb2; rfl

/-- A successful visit that is not a Sample Name study visit preserves the
sources table and the consistency of the samples table. -/
theorem visit_samplesConsistent (b b2 : SampleSheetBuilder) (material : IsaNode)
    (node_path : List IsaNode) (hasAssay : Bool)
    (h : on_visit_material b material node_path hasAssay = some b2)
    (hs : isSampleEvent ⟨material, node_path, hasAssay⟩ = false)
    (hc : samplesConsistent b) : samplesConsistent b2 := by
  rcases on_visit_cases b b2 material node_path hasAssay h with
    ⟨src, hcond, _, hb2⟩ | ⟨ft, lt, src0, _, hget, hsrc, hb2⟩ | hb2
  · exact absurd hcond (by simpa [isSampleEvent] using hs)
  · subst hb2
    intro q hq
    rcases mem_dictInsert b.samples ft.name (mkSample src0 material lt node_path) q hq with
      rfl | hq2
    · show dictGet b.sources ft.name = some (mkSample src0 material lt node_path).source
      rw [hsrc]
      exact hget
    · exact hc q hq2
  · subst hb2
    exact hc

/-- Running a traversal splits along list append. -/
theorem runVisits_append (b : SampleSheetBuilder) (l1 l2 : List VisitEvent) :
    runVisits b (l1 ++ l2) = (runVisits b l1).bind (fun b2 => runVisits b2 l2) := by
  induction l1 generalizing b with
  | nil => rfl
  | cons e t ih =>
    rw [List.cons_append, runVisits, runVisits]
    cases on_visit_material b e.material e.node_path e.hasAssay with
    | none => rfl
    | some b2 => exact ih b2

/-- Study phase: a run without Library Name visits keeps the sources table
keyed and never touches the samples table. -/
theorem runVisits_phase1 (l : List VisitEvent) :
    ∀ (b b2 : SampleSheetBuilder), (∀ e ∈ l, isLibraryEvent e = false) →
      runVisits b l = some b2 → sourcesKeyed b →
      sourcesKeyed b2 ∧ b2.samples = b.samples := by
  induction l with
  | nil =>
    intro b b2 _ h hk
    rw [runVisits] at h
    cases h
    exact ⟨hk, rfl⟩
  | cons e t ih =>
    intro b b2 hl h hk
    rw [runVisits] at h
    cases hv : on_visit_material b e.material e.node_path e.hasAssay with
    | none => rw [hv] at h; simp at h
    | some bm =>
      rw [hv] at h
      have hk2 := visit_sourcesKeyed b bm e.material e.node_path e.hasAssay hv hk
      have hsam := visit_nonlibrary_samples b bm e.material e.node_path e.hasAssay hv
        (hl e (List.mem_cons_self e t))
      obtain ⟨hk3, hsam2⟩ := ih bm b2 (fun x hx => hl x (List.mem_cons_of_mem e hx)) h hk2
      exact ⟨hk3, by rw [hsam2, hsam]⟩

/-- Assay phase: a run without Sample Name study visits preserves the keying
of the sources table and the consistency of the samples table. -/
theorem runVisits_phase2 (l : List VisitEvent) :
    ∀ (b b2 : SampleSheetBuilder), (∀ e ∈ l, isSampleEvent e = false) →
      runVisits b l = some b2 → sourcesKeyed b → samplesConsistent b →
      sourcesKeyed b2 ∧ samplesConsistent b2 := by
  induction l with
  | nil =>
    intro b b2 _ h hk hc
    rw [runVisits] at h
    cases h
    exact ⟨hk, hc⟩
  | cons e t ih =>
    intro b b2 hl h hk hc
    rw [runVisits] at h
    cases hv : on_visit_material b e.material e.node_path e.hasAssay with
    | none => rw [hv] at h; simp at h
    | some bm =>
      rw [hv] at h
      have hk2 := visit_sourcesKeyed b bm e.material e.node_path e.hasAssay hv hk
      have hc2 := visit_samplesConsistent b bm e.material e.node_path e.hasAssay hv
        (hl e (List.mem_cons_self e t)) hc
      exact ih bm b2 (fun x hx => hl x (List.mem_cons_of_mem e hx)) h hk2 hc2

/-- C7: after a traversal whose study phase (no Library Name visits) precedes
its assay phase (no Sample Name visits outside an assay), both builder tables
are keyed by sample name: every sources entry stores a Source whose
sample_name is its key, every samples entry stores the Source recorded under
the same key in the sources table, and hence every samples key names the
sample the stored record describes. -/
theorem builder_tables_keyed (es1 es2 : List VisitEvent) (b : SampleSheetBuilder)
    (h1 : ∀ e ∈ es1, isLibraryEvent e = false)
    (h2 : ∀ e ∈ es2, isSampleEvent e = false)
    (hrun : runVisits initBuilder (es1 ++ es2) = some b) :
    sourcesKeyed b ∧ samplesConsistent b ∧
    ∀ q ∈ b.samples, q.2.source.sample_name = q.1 := by
  rw [runVisits_append] at hrun
  cases hm : runVisits initBuilder es1 with
  | none => rw [hm] at hrun; simp at hrun
  | some bmid =>
    rw [hm] at hrun
    simp only [Option.some_bind] at hrun
    have hk0 : sourcesKeyed initBuilder := by
      intro p hp
      simp [initBuilder] at hp
    obtain ⟨hk1, hsam1⟩ := runVisits_phase1 es1 initBuilder bmid h1 hm hk0
    have hcons1 : samplesConsistent bmid := by
      intro q hq
      rw [hsam1] at hq
      simp [initBuilder] at hq
    obtain ⟨hk2, hcons2⟩ := runVisits_phase2 es2 bmid b h2 hrun hk1 hcons1
    refine ⟨hk2, hcons2, ?_⟩
    intro q hq
    have hget := hcons2 q hq
    have hmem := dictGet_mem b.sources q.1 q.2.source hget
    exact hk2 (q.1, q.2.source) hmem

/-- Library node of the C7 witness. -/
def wLibNode : IsaNode := ⟨"sam1-WGS1", some "Library Name", [], []⟩

/-- Study-phase visit of the C7 witness: the sample material of the C10 data. -/
def wEv1 : VisitEvent := ⟨c10material, c10path, false⟩

/-- Assay-phase visit of the C7 witness: a library under the same sample. -/
def wEv2 : VisitEvent := ⟨wLibNode, [c10material, wLibNode], true⟩

/-- Builder state after the C7 witness traversal. -/
def wTraversalB : SampleSheetBuilder :=
  (runVisits initBuilder ([wEv1] ++ [wEv2])).getD initBuilder

/-- Witness for C7 at the two-event traversal. -/
theorem builder_tables_keyed_witness :
    sourcesKeyed wTraversalB ∧ samplesConsistent wTraversalB ∧
    ∀ q ∈ wTraversalB.samples, q.2.source.sample_name = q.1 :=
  builder_tables_keyed [wEv1] [wEv2] wTraversalB (by decide) (by decide) (by rfl)

end PullSheets
